import Mathlib

/-!
Verification of the holodeck shared-memory / tick-protocol core.

The definitions below are a shallow embedding of the Python sources
`src/holodeck/shmem.py` and `src/holodeck/environments.py`.  Modules of
the repository that are imported by `environments.py` but whose source is
not part of the visible tree (`holodeck/command.py`, `holodeck/holodeckclient.py`,
`holodeck/util.py`) are modelled from the specification, and each such
definition carries a doc comment saying so.
-/

namespace Holodeck

/-- Numpy dtypes of the model universe: the four dtypes supported by
`Shmem._numpy_to_ctype` (shmem.py lines 23-28) together with representative
unsupported dtypes (float64, int32, uint16), so that rejection of dtypes
outside the supported enumeration is expressible. -/
inductive NumpyDtype
  | float32
  | uint8
  | npbool
  | npbyte
  | float64
  | int32
  | uint16
deriving DecidableEq

/-- Byte width of a numpy dtype, as computed by `np.dtype(dtype).itemsize`
in shmem.py line 34. -/
def itemsize : NumpyDtype → Nat
  | .float32 => 4
  | .uint8 => 1
  | .npbool => 1
  | .npbyte => 1
  | .float64 => 8
  | .int32 => 4
  | .uint16 => 2

/-- The ctypes types appearing as values of `Shmem._numpy_to_ctype`. -/
inductive CType
  | c_float
  | c_uint8
  | c_bool
  | c_byte
deriving DecidableEq

/-- Native binary word width in bytes of each ctypes type (`ctypes.sizeof`). -/
def ctypeSize : CType → Nat
  | .c_float => 4
  | .c_uint8 => 1
  | .c_bool => 1
  | .c_byte => 1

/-- The dict `Shmem._numpy_to_ctype` of shmem.py lines 23-28.  A missing
key yields `none` here; in Python the lookup at line 55 raises `KeyError`. -/
def numpy_to_ctype : NumpyDtype → Option CType
  | .float32 => some .c_float
  | .uint8 => some .c_uint8
  | .npbool => some .c_bool
  | .npbyte => some .c_byte
  | _ => none

/-- The values of `os.name` distinguished by shmem.py and environments.py. -/
inductive OSName
  | posix
  | nt
  | otherOS
deriving DecidableEq

/-- Message of the `HolodeckException` raised for an unsupported os
(shmem.py lines 52 and 66). -/
def unsupportedOsMsg : String := "Currently unsupported os"

/-- Python exceptions that the embedded code can raise. -/
inductive PyError
  | typeError
  | keyError
  | attributeError
  | fileNotFoundError
  | holodeckException (msg : String)
deriving DecidableEq

/-- The shared-memory object name built by `Shmem.__init__`
(shmem.py lines 39 and 42): on Windows `"/HOLODECK_MEM" + uuid + "_" + name`,
on posix `"/dev/shm/HOLODECK_MEM" + uuid + "_" + name`. -/
def memPathFor (os : OSName) (uuid name : String) : String :=
  match os with
  | .nt => "/HOLODECK_MEM" ++ uuid ++ "_" ++ name
  | .posix => "/dev/shm/HOLODECK_MEM" ++ uuid ++ "_" ++ name
  | .otherOS => ""

/-- State of one `Shmem` object (shmem.py class `Shmem`).
`sizeBytes` is the byte size of the OS-mapped backing region fixed in
`__init__`; `hasNpArray` tracks whether the `np_array` attribute exists
(it is deleted by `__linux_unlink__`); `fileExists` tracks whether the
backing file at `memPath` still exists (removed by `os.remove`). -/
structure Shmem where
  shape : List Nat
  dtype : NumpyDtype
  memPath : String
  sizeBytes : Nat
  hasNpArray : Bool
  fileExists : Bool
deriving DecidableEq

/-- `Shmem.__init__` (shmem.py lines 30-57).  In source order:
`reduce(lambda x, y: x * y, shape)` raises `TypeError` on an empty
sequence; an os other than nt/posix raises `HolodeckException`
(line 52); the lookup `Shmem._numpy_to_ctype[dtype]` at line 55 raises
`KeyError` for a dtype outside the supported enumeration.  On success the
backing region of `np.dtype(dtype).itemsize * size` bytes has been created
at `memPathFor os uuid name` and the numpy view installed. -/
def Shmem.init (os : OSName) (name : String) (shape : List Nat)
    (dtype : NumpyDtype) (uuid : String) : Except PyError Shmem :=
  match shape with
  | [] => .error .typeError
  | s0 :: rest =>
    let size := rest.foldl (· * ·) s0
    let sizeBytes := itemsize dtype * size
    match os with
    | .otherOS => .error (.holodeckException unsupportedOsMsg)
    | _ =>
      match numpy_to_ctype dtype with
      | none => .error .keyError
      | some _ =>
        .ok { shape := shape
              dtype := dtype
              memPath := memPathFor os uuid name
              sizeBytes := sizeBytes
              hasNpArray := true
              fileExists := true }

/-- `Shmem.unlink` (shmem.py lines 59-73).  On Windows
`__windows_unlink__` is `pass` (a no-op).  On posix `__linux_unlink__`
first executes `del self.np_array` (an `AttributeError` if the attribute
was already deleted by a previous unlink) and then `os.remove(self._mem_path)`
(a `FileNotFoundError` if the backing file is already gone). -/
def Shmem.unlink (os : OSName) (s : Shmem) : Except PyError Shmem :=
  match os with
  | .nt => .ok s
  | .posix =>
    if s.hasNpArray then
      if s.fileExists then
        .ok { s with hasNpArray := false, fileExists := false }
      else .error .fileNotFoundError
    else .error .attributeError
  | .otherOS => .error (.holodeckException unsupportedOsMsg)

theorem foldl_mul_eq_prod (l : List Nat) (a : Nat) :
    l.foldl (· * ·) a = a * l.prod := by
  induction l generalizing a with
  | nil => simp
  | cons x xs ih =>
    simp only [List.foldl_cons, List.prod_cons, ih]
    ring

theorem string_data_append (s t : String) : (s ++ t).data = s.data ++ t.data := rfl

theorem string_eq_of_data {s t : String} (h : s.data = t.data) : s = t := by
  cases s
  cases t
  exact congrArg String.mk h

theorem uuid_inj_of_append (p u1 u2 n : String)
    (h : p ++ u1 ++ "_" ++ n = p ++ u2 ++ "_" ++ n) : u1 = u2 := by
  have hd := congrArg String.data h
  simp only [string_data_append, List.append_assoc] at hd
  have h1 := List.append_cancel_left hd
  rw [← List.append_assoc, ← List.append_assoc] at h1
  have h2 := List.append_cancel_right h1
  exact string_eq_of_data (List.append_cancel_right h2)

/-- C4: for every shape and supported element type, the shared-memory
region created by `Shmem.__init__` has byte size exactly the product of
the shape entries times the dtype item size (shmem.py lines 33-34), and
no operation of `Shmem` (its only other operation is `unlink`) changes
that size after creation. -/
theorem shmem_size_is_product :
    (∀ os name shape dtype uuid s,
        Shmem.init os name shape dtype uuid = .ok s →
        s.sizeBytes = itemsize dtype * shape.prod) ∧
    (∀ os s s', Shmem.unlink os s = .ok s' → s'.sizeBytes = s.sizeBytes) := by
  constructor
  · intro os name shape dtype uuid s h
    cases shape with
    | nil => simp [Shmem.init] at h
    | cons s0 rest =>
      cases os with
      | otherOS => simp [Shmem.init] at h
      | posix =>
        cases hc : numpy_to_ctype dtype <;> simp [Shmem.init, hc] at h
        subst h
        simp [foldl_mul_eq_prod, List.prod_cons]
      | nt =>
        cases hc : numpy_to_ctype dtype <;> simp [Shmem.init, hc] at h
        subst h
        simp [foldl_mul_eq_prod, List.prod_cons]
  · intro os s s' h
    cases os with
    | nt =>
      simp only [Shmem.unlink, Except.ok.injEq] at h
      rw [← h]
    | posix =>
      by_cases h1 : s.hasNpArray <;> by_cases h2 : s.fileExists <;>
        simp [Shmem.unlink, h1, h2] at h
      rw [← h]
    | otherOS => simp [Shmem.unlink] at h

/-- C4 witness: a concrete posix buffer of shape [4, 2] and dtype float32
has byte size 4 * 8 = 32. -/
theorem shmem_size_is_product_witness :
    ∃ s, Shmem.init .posix "STATE" [4, 2] .float32 "" = .ok s ∧
      s.sizeBytes = itemsize .float32 * ([4, 2] : List Nat).prod :=
  ⟨{ shape := [4, 2], dtype := .float32,
     memPath := "/dev/shm/HOLODECK_MEM_STATE", sizeBytes := 32,
     hasNpArray := true, fileExists := true },
   rfl,
   shmem_size_is_product.1 .posix "STATE" [4, 2] .float32 ""
     { shape := [4, 2], dtype := .float32,
       memPath := "/dev/shm/HOLODECK_MEM_STATE", sizeBytes := 32,
       hasNpArray := true, fileExists := true } rfl⟩

/-- C5: the OS shared-memory object name built by `Shmem.__init__` is
`"/dev/shm/HOLODECK_MEM" + uuid + "_" + name` on posix and
`"/HOLODECK_MEM" + uuid + "_" + name` on Windows (shmem.py lines 39, 42),
for every uuid including the empty string; hence two sessions with
distinct uuids never produce the same object name for any given buffer
name. -/
theorem shmem_name_scoping :
    (∀ uuid name, memPathFor .posix uuid name =
        "/dev/shm/HOLODECK_MEM" ++ uuid ++ "_" ++ name) ∧
    (∀ uuid name, memPathFor .nt uuid name =
        "/HOLODECK_MEM" ++ uuid ++ "_" ++ name) ∧
    (∀ os name shape dtype uuid s,
        Shmem.init os name shape dtype uuid = .ok s →
        s.memPath = memPathFor os uuid name) ∧
    (∀ u1 u2 n, u1 ≠ u2 →
        memPathFor .posix u1 n ≠ memPathFor .posix u2 n ∧
        memPathFor .nt u1 n ≠ memPathFor .nt u2 n) := by
  refine ⟨fun uuid name => rfl, fun uuid name => rfl, ?_, ?_⟩
  · intro os name shape dtype uuid s h
    cases shape with
    | nil => simp [Shmem.init] at h
    | cons s0 rest =>
      cases os with
      | otherOS => simp [Shmem.init] at h
      | posix =>
        cases hc : numpy_to_ctype dtype <;> simp [Shmem.init, hc] at h
        subst h
        rfl
      | nt =>
        cases hc : numpy_to_ctype dtype <;> simp [Shmem.init, hc] at h
        subst h
        rfl
  · intro u1 u2 n hne
    constructor
    · intro h
      exact hne (uuid_inj_of_append "/dev/shm/HOLODECK_MEM" u1 u2 n h)
    · intro h
      exact hne (uuid_inj_of_append "/HOLODECK_MEM" u1 u2 n h)

/-- C5 witness: distinct uuids "A" and "B" give distinct object names for
the buffer "RESET" on both platforms. -/
theorem shmem_name_scoping_witness :
    ("A" : String) ≠ "B" ∧
      (memPathFor .posix "A" "RESET" ≠ memPathFor .posix "B" "RESET" ∧
       memPathFor .nt "A" "RESET" ≠ memPathFor .nt "B" "RESET") :=
  ⟨by decide, shmem_name_scoping.2.2.2 "A" "B" "RESET" (by decide)⟩

/-- C6: the dtypes accepted by `Shmem` are exactly the closed four-element
set float32, uint8, byte, bool of `_numpy_to_ctype` (shmem.py lines 23-28),
each mapped to a ctypes word of the same byte width, and `__init__` with
any other dtype fails (the `KeyError` of line 55) rather than succeeding. -/
theorem shmem_dtype_closed_enumeration :
    (∀ dtype, (numpy_to_ctype dtype).isSome = true ↔
        (dtype = NumpyDtype.float32 ∨ dtype = NumpyDtype.uint8 ∨
         dtype = NumpyDtype.npbyte ∨ dtype = NumpyDtype.npbool)) ∧
    (∀ dtype c, numpy_to_ctype dtype = some c → ctypeSize c = itemsize dtype) ∧
    (∀ os name shape dtype uuid, os ≠ OSName.otherOS → shape ≠ [] →
        ((∃ s, Shmem.init os name shape dtype uuid = .ok s) ↔
          (numpy_to_ctype dtype).isSome = true)) := by
  refine ⟨fun dtype => by cases dtype <;> decide, ?_, ?_⟩
  · intro dtype c h
    cases dtype <;> simp only [numpy_to_ctype] at h <;>
      first
      | (cases h; rfl)
      | simp at h
  · intro os name shape dtype uuid hos hsh
    cases shape with
    | nil => exact absurd rfl hsh
    | cons s0 rest =>
      cases os with
      | otherOS => exact absurd rfl hos
      | posix => cases hc : numpy_to_ctype dtype <;> simp [Shmem.init, hc]
      | nt => cases hc : numpy_to_ctype dtype <;> simp [Shmem.init, hc]

/-- C6 witness: float64 is outside the enumeration, and constructing a
Shmem with it fails (the success-iff-supported equivalence at a concrete
unsupported dtype, whose right side is false). -/
theorem shmem_dtype_closed_enumeration_witness :
    OSName.posix ≠ OSName.otherOS ∧ ([4] : List Nat) ≠ [] ∧
      ((∃ s, Shmem.init .posix "RESET" [4] .float64 "" = .ok s) ↔
        (numpy_to_ctype NumpyDtype.float64).isSome = true) ∧
      (numpy_to_ctype NumpyDtype.float64).isSome = false :=
  ⟨by decide, by decide,
   shmem_dtype_closed_enumeration.2.2 .posix "RESET" [4] .float64 ""
     (by decide) (by decide),
   by decide⟩

/-- C8: on posix the first `unlink` removes the backing file and a second
`unlink` fails loudly (the `del self.np_array` of line 69 raises
`AttributeError` once the attribute is gone); on Windows `unlink` is a
no-op every time (line 73); a freshly constructed Shmem has its np_array
attribute and backing file. -/
theorem shmem_unlink_per_platform :
    (∀ s : Shmem, s.hasNpArray = true → s.fileExists = true →
        ∃ s', Shmem.unlink .posix s = .ok s' ∧
          s'.hasNpArray = false ∧ s'.fileExists = false ∧
          Shmem.unlink .posix s' = .error .attributeError) ∧
    (∀ s : Shmem, Shmem.unlink .nt s = .ok s) ∧
    (∀ os name shape dtype uuid s,
        Shmem.init os name shape dtype uuid = .ok s →
        s.hasNpArray = true ∧ s.fileExists = true) := by
  refine ⟨?_, fun s => rfl, ?_⟩
  · intro s h1 h2
    refine ⟨{ s with hasNpArray := false, fileExists := false },
        by simp [Shmem.unlink, h1, h2], rfl, rfl, by simp [Shmem.unlink]⟩
  · intro os name shape dtype uuid s h
    cases shape with
    | nil => simp [Shmem.init] at h
    | cons s0 rest =>
      cases os with
      | otherOS => simp [Shmem.init] at h
      | posix =>
        cases hc : numpy_to_ctype dtype <;> simp [Shmem.init, hc] at h
        subst h
        exact ⟨rfl, rfl⟩
      | nt =>
        cases hc : numpy_to_ctype dtype <;> simp [Shmem.init, hc] at h
        subst h
        exact ⟨rfl, rfl⟩

/-- C8 witness: double unlink on a concrete freshly-created posix Shmem. -/
theorem shmem_unlink_per_platform_witness :
    ({ shape := [1], dtype := .npbool, memPath := "/dev/shm/HOLODECK_MEM_RESET",
       sizeBytes := 1, hasNpArray := true, fileExists := true } : Shmem).hasNpArray = true ∧
    ∃ s', Shmem.unlink .posix
        { shape := [1], dtype := .npbool, memPath := "/dev/shm/HOLODECK_MEM_RESET",
          sizeBytes := 1, hasNpArray := true, fileExists := true } = .ok s' ∧
      s'.hasNpArray = false ∧ s'.fileExists = false ∧
      Shmem.unlink .posix s' = .error .attributeError :=
  ⟨rfl, shmem_unlink_per_platform.1
    { shape := [1], dtype := .npbool, memPath := "/dev/shm/HOLODECK_MEM_RESET",
      sizeBytes := 1, hasNpArray := true, fileExists := true } rfl rfl⟩

/-! ### Embedding of `HolodeckEnvironment` (environments.py)

The environment driver is modelled as a state monad over an `Env` record,
extended with an event trace recording the externally visible protocol
actions (shared-buffer flush, semaphore release/acquire, reset-flag write,
queue-discard warning, queue clear) and with Python exception propagation.
`HolodeckClient` (holodeckclient.py) and `CommandCenter` (command.py) are
not part of the visible source tree; the definitions standing in for them
are modelled from the specification and marked as such. -/

/-- Externally visible actions of the environment driver, in program order. -/
inductive Event
  | setResetFlag (b : Bool)
  | act
  | flushBuffer
  | release
  | acquire
  | warnDiscard (n : Nat)
  | clearQueue
deriving DecidableEq

/-- The fields of an `AgentDefinition` that `HolodeckEnvironment` reads:
its name, whether it already exists in the world (no spawn command is
enqueued for an existing agent, environments.py line 541), and whether it
is the main agent. -/
structure AgentDef where
  name : String
  existing : Bool
  isMainAgent : Bool
deriving DecidableEq

/-- State returned to the caller by `_get_single_state` / `_get_full_state`
(environments.py lines 800-816).  The per-agent sensor dictionaries are
abstracted to their agent-name keys; `copy_state` copying does not change
which state is returned and is not modelled. -/
inductive StateVal
  | single (agentName : String)
  | full (stateKeys : List String)
deriving DecidableEq

/-- Mutable state of a `HolodeckEnvironment`, restricted to the fields the
tick/reset/add_agent code paths read or write.

`queueSize` models `CommandCenter.queue_size` (Modelled from the spec:
command.py is not under src; spec §3 CommandQueue is an ordered FIFO whose
size is the number of pending commands).

`worldPid`, `processAlive` and `acquireTimesOut` model the external
collaborators of spec §6: `worldPid` is `self._world_process.pid` when the
attribute exists, `processAlive` is the liveness check
`holodeck.util.check_process_alive`, and `acquireTimesOut` says whether
`HolodeckClient.acquire` (holodeckclient.py, not under src) raises
`TimeoutError` in this run — the remote peer never signalling within the
timeout. -/
structure Env where
  initialReset : Bool
  resetFlag : Bool
  totalTicks : Int
  maxTicks : Int
  preStartSteps : Nat
  queueSize : Nat
  agents : List String
  stateDict : List String
  mainAgent : Option String
  singleState : Bool
  spawnedAgentDefs : List AgentDef
  initialAgentDefs : List AgentDef
  worldPid : Option Nat
  processAlive : Nat → Bool
  acquireTimesOut : Bool

/-- Result of running one environment operation: the Python result or the
exception it raised, the environment state afterwards (Python mutations
persist even when an exception propagates), and the emitted event trace. -/
structure MOut (α : Type) where
  res : Except PyError α
  env : Env
  trace : List Event

/-- Environment computations: state + event trace + exceptions. -/
def M (α : Type) : Type := Env → MOut α

def M.pure {α : Type} (a : α) : M α := fun e => ⟨.ok a, e, []⟩

def M.bind {α β : Type} (x : M α) (f : α → M β) : M β := fun e =>
  match x e with
  | ⟨.ok a, e1, t1⟩ =>
    match f a e1 with
    | ⟨b, e2, t2⟩ => ⟨b, e2, t1 ++ t2⟩
  | ⟨.error err, e1, t1⟩ => ⟨.error err, e1, t1⟩

instance : Monad M where
  pure := M.pure
  bind := M.bind

def getEnv : M Env := fun e => ⟨.ok e, e, []⟩

def modifyEnv (f : Env → Env) : M Unit := fun e => ⟨.ok (), f e, []⟩

def throwPy {α : Type} (err : PyError) : M α := fun e => ⟨.error err, e, []⟩

theorem run_pure {α : Type} (a : α) (e : Env) :
    (Pure.pure a : M α) e = ⟨.ok a, e, []⟩ := rfl

theorem run_bind {α β : Type} (x : M α) (f : α → M β) (e : Env) :
    (x >>= f) e =
      match x e with
      | ⟨.ok a, e1, t1⟩ =>
        match f a e1 with
        | ⟨b, e2, t2⟩ => ⟨b, e2, t1 ++ t2⟩
      | ⟨.error err, e1, t1⟩ => ⟨.error err, e1, t1⟩ := rfl

theorem seq_ok {α β : Type} {x : M α} {f : α → M β} {e e1 e2 : Env} {a : α}
    {b : Except PyError β} {t1 t2 : List Event}
    (h : x e = ⟨.ok a, e1, t1⟩) (h2 : f a e1 = ⟨b, e2, t2⟩) :
    (x >>= f) e = ⟨b, e2, t1 ++ t2⟩ := by
  show M.bind x f e = _
  simp only [M.bind, h, h2]

theorem seq_err {α β : Type} {x : M α} {f : α → M β} {e e1 : Env}
    {err : PyError} {t1 : List Event}
    (h : x e = ⟨.error err, e1, t1⟩) :
    (x >>= f) e = ⟨.error err, e1, t1⟩ := by
  show M.bind x f e = _
  simp only [M.bind, h]

/-! ### Exception messages (verbatim from environments.py) -/

def stallMsg : String :=
  "Timed out waiting for engine process to release semaphore. Process is still running, is it frozen?"

def crashMsg : String :=
  "Engine process exited while attempting to acquire semaphore"

def mustResetStepMsg : String := "You must call .reset() before .step()"

def mustResetTickMsg : String := "You must call .reset() before .tick()"

def duplicateAgentMsg : String := "Error. Duplicate agent name. "

def tickLimitMsg : String := "The designated tick limit has been reached"

/-! ### Primitive operations -/

/-- Write to the single-boolean RESET buffer: `self._reset_ptr[0] = b`
(environments.py line 369). -/
def set_reset_ptr (b : Bool) : M Unit := fun e =>
  ⟨.ok (), { e with resetFlag := b }, [Event.setResetFlag b]⟩

/-- Modelled from the spec: `CommandCenter.handle_buffer` (command.py is
not under src).  Spec §2 and §4.4: the queue is serialized into the
outgoing shared command buffer and clears itself after each flush; the
queue is empty after `flush()` regardless of success or failure. -/
def handle_buffer : M Unit := fun e =>
  ⟨.ok (), { e with queueSize := 0 }, [Event.flushBuffer]⟩

/-- Modelled from the spec: `CommandCenter.enqueue_command` (command.py is
not under src).  Spec §4.4 `enqueue(command)` appends one command to the
FIFO queue; a local memory operation, no protocol event. -/
def enqueue_command : M Unit := fun e =>
  ⟨.ok (), { e with queueSize := e.queueSize + 1 }, []⟩

/-- Modelled from the spec: `CommandCenter.clear` (command.py is not under
src).  Spec §4.4 `clear()` discards pending commands without sending them
and does not raise. -/
def commandCenter_clear : M Unit := fun e =>
  ⟨.ok (), { e with queueSize := 0 }, [Event.clearQueue]⟩

/-- The reset-discard warning of environments.py lines 380-385: if the
command queue is non-empty, print a warning naming exactly
`self._command_center.queue_size` discarded commands; printing never
raises. -/
def warnIfPending : M Unit := fun e =>
  ⟨.ok (), e, if 0 < e.queueSize then [Event.warnDiscard e.queueSize] else []⟩

/-- `self._client.release()`: signal the remote process.  Non-blocking
(spec §4.3); emits the release event. -/
def client_release : M Unit := fun e => ⟨.ok (), e, [Event.release]⟩

/-- `HolodeckEnvironment._acquire_catch_crash` (environments.py lines
505-519): attempt `self._client.acquire()`; on `TimeoutError`, raise a
`HolodeckException` whose message is the stall message when
`pid and check_process_alive(pid)` is truthy (pid present, non-zero and
alive) and the crash message otherwise. -/
def acquire_catch_crash : M Unit := fun e =>
  if e.acquireTimesOut then
    ⟨.error (.holodeckException
        (match e.worldPid with
         | some p => if p ≠ 0 && e.processAlive p then stallMsg else crashMsg
         | none => crashMsg)),
      e, [Event.acquire]⟩
  else ⟨.ok (), e, [Event.acquire]⟩

/-- `HolodeckEnvironment.check_max_tick` (environments.py lines 495-503):
increment `_total_ticks`, then raise when it equals `_max_ticks`. -/
def check_max_tick : M Unit := fun e =>
  if e.totalTicks + 1 = e.maxTicks then
    ⟨.error (.holodeckException tickLimitMsg),
      { e with totalTicks := e.totalTicks + 1 }, []⟩
  else ⟨.ok (), { e with totalTicks := e.totalTicks + 1 }, []⟩

/-- `self._default_state_fn()` (selected at environments.py lines 399-402):
`_get_single_state` when the environment had exactly one agent at
selection time, `_get_full_state` otherwise. -/
def default_state_fn (e : Env) : StateVal :=
  if e.singleState then
    match e.mainAgent with
    | some a => .single a
    | none => .full e.stateDict
  else .full e.stateDict

/-- Read `self._default_state_fn()` as a monadic value. -/
def defaultStateFn : M StateVal := fun e => ⟨.ok (default_state_fn e), e, []⟩

/-- `if self._agent is not None: self._agent.act(action)` (environments.py
lines 432-433): a local write into the action buffer, visible as a
non-protocol event. -/
def agentAct : M Unit := fun e =>
  ⟨.ok (), e, if e.mainAgent.isSome then [Event.act] else []⟩

/-! ### Composite operations -/

/-- `HolodeckEnvironment.add_agent` (environments.py lines 524-554): raise
on a duplicate agent name before any mutation; otherwise register the
agent and its state dictionary, enqueue a `SpawnAgentCommand` unless the
agent already exists in the world, and record the main agent.
`AgentFactory.build_agent` and `add_sensors` (agents.py, sensor buffer
allocation) are local constructions abstracted to the registration of the
agent name. -/
def add_agent (d : AgentDef) (isMain : Bool) : M Unit := do
  let e ← getEnv
  if d.name ∈ e.agents then
    throwPy (.holodeckException duplicateAgentMsg)
  else
    modifyEnv fun en =>
      { en with agents := en.agents ++ [d.name]
                stateDict := en.stateDict ++ [d.name] }
    if d.existing then Pure.pure () else enqueue_command
    if isMain then modifyEnv fun en => { en with mainAgent := some d.name }
    else Pure.pure ()

/-- The loop `for agent_def in self._initial_agent_defs:
self.add_agent(agent_def, agent_def.is_main_agent)` of environments.py
lines 392-393. -/
def addAgentList : List AgentDef → M Unit
  | [] => Pure.pure ()
  | d :: rest => do
    add_agent d d.isMainAgent
    addAgentList rest

/-- Environment state after a successful `addAgentList` run, as a pure
fold (used to name the result of the agent-reload loop in proofs). -/
def addAgentsEnv : List AgentDef → Env → Env
  | [], e => e
  | d :: rest, e =>
    addAgentsEnv rest
      (let e1 := { e with agents := e.agents ++ [d.name]
                          stateDict := e.stateDict ++ [d.name] }
       let e2 := if d.existing then e1 else { e1 with queueSize := e1.queueSize + 1 }
       if d.isMainAgent then { e2 with mainAgent := some d.name } else e2)

/-- `HolodeckEnvironment._load_scenario` (environments.py lines 225-233):
`if self._scenario is None: return`.  The embedding models environments
constructed with `scenario=None`, so this is the early-return branch; the
scenario-driven agent/weather/prop loading reads configuration objects
from modules outside the visible source and is not modelled. -/
def load_scenario : M Unit := Pure.pure ()

/-- Body of `for _ in range(num_ticks)` in `HolodeckEnvironment.tick`
(environments.py lines 485-491): flush the command queue into the shared
buffer, release, acquire (with crash catching), read the state, then
check the tick limit.  `state` carries the last computed state out of the
loop. -/
def tickLoop : Nat → Option StateVal → M (Option StateVal)
  | 0, state => Pure.pure state
  | n + 1, _ => do
    handle_buffer
    client_release
    acquire_catch_crash
    let st ← defaultStateFn
    check_max_tick
    tickLoop n (some st)

/-- `HolodeckEnvironment.tick` (environments.py lines 468-493): raise
unless `reset()` has run, then run the per-tick loop `num_ticks` times
returning the state of the last tick (`None` for zero ticks). -/
def tick (num_ticks : Nat) : M (Option StateVal) := do
  let e ← getEnv
  if e.initialReset = false then
    throwPy (.holodeckException mustResetTickMsg)
  else tickLoop num_ticks none

/-- Body of `for _ in range(ticks)` in `HolodeckEnvironment.step`
(environments.py lines 431-441): write the main agent's action, flush the
command queue, release, acquire, read reward/terminal and state, then
check the tick limit.  Reward/terminal extraction (lines 818-826) is a
local read of the task sensor and is out of the modelled scope (spec §1);
the loop value carries the state. -/
def stepLoop : Nat → Option StateVal → M (Option StateVal)
  | 0, lastState => Pure.pure lastState
  | n + 1, _ => do
    agentAct
    handle_buffer
    client_release
    acquire_catch_crash
    let st ← defaultStateFn
    check_max_tick
    stepLoop n (some st)

/-- `HolodeckEnvironment.step` (environments.py lines 409-443): raise
unless `reset()` has run, then run the per-tick loop. -/
def step (ticks : Nat) : M (Option StateVal) := do
  let e ← getEnv
  if e.initialReset = false then
    throwPy (.holodeckException mustResetStepMsg)
  else stepLoop ticks none

/-- `for _ in range(self._pre_start_steps + 1): self.tick()`
(environments.py lines 404-405): repeated calls of `tick()` with the
default single tick. -/
def resetTickCalls : Nat → M Unit
  | 0 => Pure.pure ()
  | n + 1 => do
    let _ ← tick 1
    resetTickCalls n

/-- `HolodeckEnvironment.reset` (environments.py lines 357-407), in source
order: set `_initial_reset`, write True into the reset-flag buffer, clear
the agents' pending actions (a local buffer write, not modelled), lower
`_total_ticks` by 4 so the three throwaway ticks do not hit the max-ticks
threshold, tick three times, set `_total_ticks` to `-1 - pre_start_steps`
so only user ticks are counted, warn if the command queue is non-empty and
clear it, drop and re-create the agent registry from the initial agent
definitions, load the scenario, re-select the default state function,
tick `pre_start_steps + 1` times, and return the default state. -/
def reset : M StateVal := do
  modifyEnv fun e => { e with initialReset := true }
  set_reset_ptr true
  modifyEnv fun e => { e with totalTicks := e.totalTicks - 4 }
  let _ ← tick 1
  let _ ← tick 1
  let _ ← tick 1
  modifyEnv fun e => { e with totalTicks := -1 - (e.preStartSteps : Int) }
  warnIfPending
  commandCenter_clear
  modifyEnv fun e =>
    { e with spawnedAgentDefs := [], agents := [], stateDict := [] }
  let en ← getEnv
  addAgentList en.initialAgentDefs
  load_scenario
  modifyEnv fun e => { e with singleState := e.agents.length == 1 }
  let en2 ← getEnv
  resetTickCalls (en2.preStartSteps + 1)
  defaultStateFn

/-! ### Trace predicates -/

/-- The protocol events of a trace: flushes, releases and acquires. -/
def isProtocol : Event → Bool
  | .flushBuffer => true
  | .release => true
  | .acquire => true
  | _ => false

def protocolEvents (t : List Event) : List Event := t.filter isProtocol

/-- One complete handshake cycle as seen in the trace. -/
def cycleTrace : List Event := [Event.flushBuffer, Event.release, Event.acquire]

/-- `k` complete handshake cycles. -/
def cyclesTrace : Nat → List Event
  | 0 => []
  | k + 1 => cycleTrace ++ cyclesTrace k

/-- A protocol-event list consists of complete flush-release-acquire
cycles in that order. -/
def cyclesOK : List Event → Bool
  | [] => true
  | .flushBuffer :: .release :: .acquire :: rest => cyclesOK rest
  | _ => false

/-- Scanner: no release is issued while a release is already outstanding
(i.e. without an intervening acquire); the flag is "release outstanding". -/
def noDoubleRelease : Bool → List Event → Bool
  | true, .release :: _ => false
  | _, .release :: rest => noDoubleRelease true rest
  | _, .acquire :: rest => noDoubleRelease false rest
  | b, _ :: rest => noDoubleRelease b rest
  | _, [] => true

/-- Scanner: every release is preceded, within its cycle (since the last
acquire), by a buffer flush; the flag is "flushed since cycle start". -/
def flushedBeforeRelease : Bool → List Event → Bool
  | _, .flushBuffer :: rest => flushedBeforeRelease true rest
  | false, .release :: _ => false
  | true, .release :: rest => flushedBeforeRelease true rest
  | _, .acquire :: rest => flushedBeforeRelease false rest
  | b, _ :: rest => flushedBeforeRelease b rest
  | _, [] => true

/-! ### A concrete base environment for witnesses -/

/-- A concrete environment state used to instantiate the theorems below. -/
def baseEnv : Env where
  initialReset := false
  resetFlag := false
  totalTicks := 0
  maxTicks := 10
  preStartSteps := 0
  queueSize := 0
  agents := []
  stateDict := []
  mainAgent := none
  singleState := false
  spawnedAgentDefs := []
  initialAgentDefs := []
  worldPid := some 7
  processAlive := fun _ => true
  acquireTimesOut := false

/-- C9: before `reset()` has set the initial-reset flag, `tick` and `step`
raise a `HolodeckException` (environments.py lines 426-427 and 480-481)
with the environment untouched and an empty event trace — no command
flush, no release and no acquire happen. -/
theorem step_tick_require_reset (e : Env) (n : Nat)
    (h : e.initialReset = false) :
    tick n e = ⟨.error (.holodeckException mustResetTickMsg), e, []⟩ ∧
    step n e = ⟨.error (.holodeckException mustResetStepMsg), e, []⟩ := by
  constructor
  · refine seq_ok (show getEnv e = ⟨.ok e, e, []⟩ from rfl) ?_
    rw [if_pos h]
    rfl
  · refine seq_ok (show getEnv e = ⟨.ok e, e, []⟩ from rfl) ?_
    rw [if_pos h]
    rfl

/-- C9 witness: the guard fires on the concrete fresh environment. -/
theorem step_tick_require_reset_witness :
    baseEnv.initialReset = false ∧
    (tick 1 baseEnv = ⟨.error (.holodeckException mustResetTickMsg), baseEnv, []⟩ ∧
     step 1 baseEnv = ⟨.error (.holodeckException mustResetStepMsg), baseEnv, []⟩) :=
  ⟨rfl, step_tick_require_reset baseEnv 1 rfl⟩

/-- C10: `add_agent` with a name already present in the agents mapping
raises (environments.py lines 535-536) and leaves the environment exactly
as before the call, with no command enqueued and no event emitted — the
duplicate check precedes every mutation. -/
theorem add_agent_duplicate_unchanged (e : Env) (d : AgentDef) (m : Bool)
    (h : d.name ∈ e.agents) :
    add_agent d m e = ⟨.error (.holodeckException duplicateAgentMsg), e, []⟩ := by
  refine seq_ok (show getEnv e = ⟨.ok e, e, []⟩ from rfl) ?_
  rw [if_pos h]
  rfl

/-- C10 witness: adding a second agent named "uav0" to an environment that
already holds one fails and leaves the state unchanged. -/
theorem add_agent_duplicate_unchanged_witness :
    ("uav0" ∈ ({ baseEnv with agents := ["uav0"], stateDict := ["uav0"] } : Env).agents) ∧
    add_agent ⟨"uav0", false, true⟩ true
        { baseEnv with agents := ["uav0"], stateDict := ["uav0"] } =
      ⟨.error (.holodeckException duplicateAgentMsg),
        { baseEnv with agents := ["uav0"], stateDict := ["uav0"] }, []⟩ :=
  ⟨by simp,
   add_agent_duplicate_unchanged
     { baseEnv with agents := ["uav0"], stateDict := ["uav0"] }
     ⟨"uav0", false, true⟩ true (by simp)⟩

/-- C1: when `acquire` times out, `_acquire_catch_crash` raises a
`HolodeckException` distinguishing the failure modes (environments.py
lines 505-519): the stall message when the engine-process liveness check
reports it alive, the crash message when it reports it dead; the two
messages differ, and inside `tick` and `step` the exception propagates to
the caller uncaught. -/
theorem acquire_timeout_stall_vs_crash (e : Env) (p : Nat)
    (ht : e.acquireTimesOut = true) (hp : e.worldPid = some p) (hz : p ≠ 0) :
    (e.processAlive p = true →
      acquire_catch_crash e =
        ⟨.error (.holodeckException stallMsg), e, [Event.acquire]⟩) ∧
    (e.processAlive p = false →
      acquire_catch_crash e =
        ⟨.error (.holodeckException crashMsg), e, [Event.acquire]⟩) ∧
    stallMsg ≠ crashMsg ∧
    (e.initialReset = true →
      (tick 1 e).res = .error (.holodeckException
          (if e.processAlive p then stallMsg else crashMsg)) ∧
      (step 1 e).res = .error (.holodeckException
          (if e.processAlive p then stallMsg else crashMsg))) := by
  refine ⟨?_, ?_, by decide, ?_⟩
  · intro hAlive
    simp [acquire_catch_crash, ht, hp, hz, hAlive]
  · intro hDead
    simp [acquire_catch_crash, ht, hp, hz, hDead]
  · intro hr
    constructor
    · simp [tick, tickLoop, run_bind, M.bind, getEnv, hr, handle_buffer,
        client_release, acquire_catch_crash, ht, hp, hz]
    · simp [step, stepLoop, run_bind, M.bind, getEnv, hr, agentAct, handle_buffer,
        client_release, acquire_catch_crash, ht, hp, hz]

/-- C1 witness: a concrete timed-out environment with a live engine
process raises the stall error, and the same environment with the
liveness check reporting dead raises the crash error. -/
theorem acquire_timeout_stall_vs_crash_witness :
    (({ baseEnv with acquireTimesOut := true } : Env).processAlive 7 = true →
      acquire_catch_crash { baseEnv with acquireTimesOut := true } =
        ⟨.error (.holodeckException stallMsg),
          { baseEnv with acquireTimesOut := true }, [Event.acquire]⟩) ∧
    (({ baseEnv with acquireTimesOut := true, processAlive := fun _ => false } : Env).processAlive 7 = false →
      acquire_catch_crash { baseEnv with acquireTimesOut := true, processAlive := fun _ => false } =
        ⟨.error (.holodeckException crashMsg),
          { baseEnv with acquireTimesOut := true, processAlive := fun _ => false },
          [Event.acquire]⟩) :=
  ⟨(acquire_timeout_stall_vs_crash
      { baseEnv with acquireTimesOut := true } 7 rfl rfl (by decide)).1,
   (acquire_timeout_stall_vs_crash
      { baseEnv with acquireTimesOut := true, processAlive := fun _ => false } 7
      rfl rfl (by decide)).2.1⟩

/-! ### Per-tick protocol ordering (C2) -/

theorem protocolEvents_nil : protocolEvents [] = [] := rfl

theorem protocolEvents_cycle_append (t : List Event) :
    protocolEvents (cycleTrace ++ t) = cycleTrace ++ protocolEvents t := by
  simp [protocolEvents, cycleTrace, isProtocol]

theorem protocolEvents_act_cons (t : List Event) :
    protocolEvents (Event.act :: t) = protocolEvents t := by
  simp [protocolEvents, isProtocol]

theorem cyclesOK_cyclesTrace (k : Nat) : cyclesOK (cyclesTrace k) = true := by
  induction k with
  | zero => rfl
  | succ k ih => simpa [cyclesTrace, cycleTrace, cyclesOK] using ih

theorem noDoubleRelease_cyclesTrace (k : Nat) :
    noDoubleRelease false (cyclesTrace k) = true := by
  induction k with
  | zero => rfl
  | succ k ih => simpa [cyclesTrace, cycleTrace, noDoubleRelease] using ih

theorem flushedBeforeRelease_cyclesTrace (k : Nat) :
    flushedBeforeRelease false (cyclesTrace k) = true := by
  induction k with
  | zero => rfl
  | succ k ih => simpa [cyclesTrace, cycleTrace, flushedBeforeRelease] using ih

theorem noDoubleRelease_filter (b : Bool) (t : List Event) :
    noDoubleRelease b (protocolEvents t) = noDoubleRelease b t := by
  induction t generalizing b with
  | nil => rfl
  | cons ev rest ih =>
    cases ev <;> cases b <;>
      simp [protocolEvents, isProtocol, noDoubleRelease, List.filter_cons, ← ih]

theorem flushedBeforeRelease_filter (b : Bool) (t : List Event) :
    flushedBeforeRelease b (protocolEvents t) = flushedBeforeRelease b t := by
  induction t generalizing b with
  | nil => rfl
  | cons ev rest ih =>
    cases ev <;> cases b <;>
      simp [protocolEvents, isProtocol, flushedBeforeRelease, List.filter_cons, ← ih]

/-- Trace of one iteration of the tick loop: a full flush-release-acquire
cycle, followed by the rest of the loop only when neither the acquire
timed out nor the tick limit fired. -/
theorem tickLoop_succ_trace (n : Nat) (last : Option StateVal) (e : Env) :
    ((tickLoop (n + 1) last) e).trace =
      cycleTrace ++
        (if e.acquireTimesOut then []
         else if e.totalTicks + 1 = e.maxTicks then []
         else ((tickLoop n (some (default_state_fn { e with queueSize := 0 })))
                 { e with queueSize := 0, totalTicks := e.totalTicks + 1 }).trace) := by
  by_cases ha : e.acquireTimesOut <;>
    by_cases hc : e.totalTicks + 1 = e.maxTicks <;>
      simp [tickLoop, run_bind, M.bind, handle_buffer, client_release,
        acquire_catch_crash, defaultStateFn, check_max_tick, ha, hc, cycleTrace]

/-- Trace of one iteration of the step loop: an optional action write,
then a full cycle, then possibly the rest of the loop. -/
theorem stepLoop_succ_trace (n : Nat) (last : Option StateVal) (e : Env) :
    ((stepLoop (n + 1) last) e).trace =
      (if e.mainAgent.isSome then [Event.act] else []) ++ cycleTrace ++
        (if e.acquireTimesOut then []
         else if e.totalTicks + 1 = e.maxTicks then []
         else ((stepLoop n (some (default_state_fn { e with queueSize := 0 })))
                 { e with queueSize := 0, totalTicks := e.totalTicks + 1 }).trace) := by
  by_cases hm : e.mainAgent.isSome <;>
    by_cases ha : e.acquireTimesOut <;>
      by_cases hc : e.totalTicks + 1 = e.maxTicks <;>
        simp [stepLoop, run_bind, M.bind, agentAct, handle_buffer, client_release,
          acquire_catch_crash, defaultStateFn, check_max_tick, hm, ha, hc, cycleTrace]

theorem tickLoop_cycles (n : Nat) (last : Option StateVal) (e : Env) :
    ∃ k, protocolEvents ((tickLoop n last) e).trace = cyclesTrace k := by
  induction n generalizing last e with
  | zero => exact ⟨0, rfl⟩
  | succ n ih =>
    rw [tickLoop_succ_trace]
    by_cases ha : e.acquireTimesOut
    · refine ⟨1, ?_⟩
      rw [if_pos ha]
      rfl
    · by_cases hc : e.totalTicks + 1 = e.maxTicks
      · refine ⟨1, ?_⟩
        rw [if_neg ha, if_pos hc]
        rfl
      · obtain ⟨k, hk⟩ := ih (some (default_state_fn { e with queueSize := 0 }))
          { e with queueSize := 0, totalTicks := e.totalTicks + 1 }
        refine ⟨k + 1, ?_⟩
        rw [if_neg ha, if_neg hc, protocolEvents_cycle_append, hk]
        rfl

theorem stepLoop_cycles (n : Nat) (last : Option StateVal) (e : Env) :
    ∃ k, protocolEvents ((stepLoop n last) e).trace = cyclesTrace k := by
  induction n generalizing last e with
  | zero => exact ⟨0, rfl⟩
  | succ n ih =>
    rw [stepLoop_succ_trace]
    have hact : ∀ t : List Event,
        protocolEvents ((if e.mainAgent.isSome then [Event.act] else []) ++ t) =
          protocolEvents t := by
      intro t
      by_cases hm : e.mainAgent.isSome <;> simp [hm, protocolEvents_act_cons]
    by_cases ha : e.acquireTimesOut
    · refine ⟨1, ?_⟩
      rw [if_pos ha, List.append_nil, hact]
      rfl
    · by_cases hc : e.totalTicks + 1 = e.maxTicks
      · refine ⟨1, ?_⟩
        rw [if_neg ha, if_pos hc, List.append_nil, hact]
        rfl
      · obtain ⟨k, hk⟩ := ih (some (default_state_fn { e with queueSize := 0 }))
          { e with queueSize := 0, totalTicks := e.totalTicks + 1 }
        refine ⟨k + 1, ?_⟩
        rw [if_neg ha, if_neg hc, List.append_assoc, hact,
          protocolEvents_cycle_append, hk]
        rfl

theorem tick_trace (n : Nat) (e : Env) :
    ((tick n) e).trace =
      if e.initialReset = false then [] else ((tickLoop n none) e).trace := by
  by_cases h : e.initialReset = false <;>
    simp [tick, run_bind, M.bind, getEnv, throwPy, h]

theorem step_trace (n : Nat) (e : Env) :
    ((step n) e).trace =
      if e.initialReset = false then [] else ((stepLoop n none) e).trace := by
  by_cases h : e.initialReset = false <;>
    simp [step, run_bind, M.bind, getEnv, throwPy, h]

/-- C2: in every iteration of the per-tick loop of `step` and `tick` the
order is fixed — flush into the shared buffer (`handle_buffer`), then
`release()`, then `acquire()` (environments.py lines 435-437 and 486-489):
the protocol events of any run form complete flush-release-acquire cycles;
consequently no release is ever issued twice without an intervening
completed acquire, and no release precedes the flush of its cycle. -/
theorem tick_step_protocol_order (n : Nat) (e : Env) :
    (cyclesOK (protocolEvents ((tick n) e).trace) = true ∧
     noDoubleRelease false ((tick n) e).trace = true ∧
     flushedBeforeRelease false ((tick n) e).trace = true) ∧
    (cyclesOK (protocolEvents ((step n) e).trace) = true ∧
     noDoubleRelease false ((step n) e).trace = true ∧
     flushedBeforeRelease false ((step n) e).trace = true) := by
  constructor
  · rw [tick_trace]
    by_cases h : e.initialReset = false
    · simp [h, protocolEvents_nil, noDoubleRelease, flushedBeforeRelease, cyclesOK]
    · obtain ⟨k, hk⟩ := tickLoop_cycles n none e
      rw [if_neg h]
      refine ⟨by rw [hk]; exact cyclesOK_cyclesTrace k, ?_, ?_⟩
      · rw [← noDoubleRelease_filter, hk]
        exact noDoubleRelease_cyclesTrace k
      · rw [← flushedBeforeRelease_filter, hk]
        exact flushedBeforeRelease_cyclesTrace k
  · rw [step_trace]
    by_cases h : e.initialReset = false
    · simp [h, protocolEvents_nil, noDoubleRelease, flushedBeforeRelease, cyclesOK]
    · obtain ⟨k, hk⟩ := stepLoop_cycles n none e
      rw [if_neg h]
      refine ⟨by rw [hk]; exact cyclesOK_cyclesTrace k, ?_, ?_⟩
      · rw [← noDoubleRelease_filter, hk]
        exact noDoubleRelease_cyclesTrace k
      · rw [← flushedBeforeRelease_filter, hk]
        exact flushedBeforeRelease_cyclesTrace k

/-! ### Successful tick runs (used for the reset sequence and the
tick-limit accounting) -/

/-- A run of the tick loop in which no acquire times out and no iteration
reaches the tick limit: every iteration is a full cycle, the queue ends
flushed, the tick counter advances by the number of iterations, and the
loop returns the state of the last tick. -/
theorem tickLoop_ok (k : Nat) (last : Option StateVal) (e : Env)
    (ha : e.acquireTimesOut = false)
    (hm : ∀ i : Nat, i < k → e.totalTicks + (i + 1) ≠ e.maxTicks) :
    (tickLoop k last) e =
      ⟨.ok (match k with
            | 0 => last
            | _ + 1 => some (default_state_fn e)),
        (match k with
         | 0 => e
         | _ + 1 => { e with queueSize := 0, totalTicks := e.totalTicks + k }),
        cyclesTrace k⟩ := by
  induction k generalizing last e with
  | zero => rfl
  | succ n ih =>
    have h1 : e.totalTicks + 1 ≠ e.maxTicks := by
      have h := hm 0 (by omega)
      simpa using h
    have hm2 : ∀ i : Nat, i < n →
        ({ e with queueSize := 0, totalTicks := e.totalTicks + 1 } : Env).totalTicks
            + (i + 1) ≠
          ({ e with queueSize := 0, totalTicks := e.totalTicks + 1 } : Env).maxTicks := by
      intro i hi
      have h := hm (i + 1) (by omega)
      simp only [] at h ⊢
      push_cast at h ⊢
      omega
    have h_hb : handle_buffer e =
        ⟨.ok (), { e with queueSize := 0 }, [Event.flushBuffer]⟩ := rfl
    have h_cr : client_release { e with queueSize := 0 } =
        ⟨.ok (), { e with queueSize := 0 }, [Event.release]⟩ := rfl
    have h_ac : acquire_catch_crash { e with queueSize := 0 } =
        ⟨.ok (), { e with queueSize := 0 }, [Event.acquire]⟩ := by
      simp [acquire_catch_crash, ha]
    have h_ds : defaultStateFn { e with queueSize := 0 } =
        ⟨.ok (default_state_fn { e with queueSize := 0 }),
          { e with queueSize := 0 }, []⟩ := rfl
    have h_ck : check_max_tick { e with queueSize := 0 } =
        ⟨.ok (), { e with queueSize := 0, totalTicks := e.totalTicks + 1 }, []⟩ := by
      simp [check_max_tick, h1]
    have hIH := ih (some (default_state_fn { e with queueSize := 0 }))
      { e with queueSize := 0, totalTicks := e.totalTicks + 1 } ha hm2
    refine (seq_ok h_hb (seq_ok h_cr (seq_ok h_ac
      (seq_ok h_ds (seq_ok h_ck hIH))))).trans ?_
    cases n with
    | zero => rfl
    | succ m =>
      simp only [MOut.mk.injEq, Env.mk.injEq, cyclesTrace, cycleTrace,
        List.cons_append, List.nil_append]
      refine ⟨rfl, ?_, trivial⟩
      simp only [true_and, and_true]
      push_cast
      omega

/-- A single successful `tick()` call (the form used inside `reset`). -/
theorem tick_one_ok (e : Env) (hi : e.initialReset = true)
    (ha : e.acquireTimesOut = false) (h1 : e.totalTicks + 1 ≠ e.maxTicks) :
    (tick 1) e =
      ⟨.ok (some (default_state_fn e)),
        { e with queueSize := 0, totalTicks := e.totalTicks + 1 }, cycleTrace⟩ := by
  have hloop := tickLoop_ok 1 none e ha (fun i hlt => by omega)
  refine seq_ok (show getEnv e = ⟨.ok e, e, []⟩ from rfl) ?_
  rw [if_neg (by simp [hi])]
  exact hloop

/-- A run of `for _ in range(k): self.tick()` in which every tick
completes: the counter advances by `k` and the trace is `k` cycles. -/
theorem resetTickCalls_ok (k : Nat) (e : Env) (hi : e.initialReset = true)
    (ha : e.acquireTimesOut = false)
    (hm : ∀ i : Nat, i < k → e.totalTicks + (i + 1) ≠ e.maxTicks) :
    (resetTickCalls k) e =
      ⟨.ok (),
        (match k with
         | 0 => e
         | _ + 1 => { e with queueSize := 0, totalTicks := e.totalTicks + k }),
        cyclesTrace k⟩ := by
  induction k generalizing e with
  | zero => rfl
  | succ n ih =>
    have h1 : e.totalTicks + 1 ≠ e.maxTicks := by
      have h := hm 0 (by omega)
      simpa using h
    have hm2 : ∀ i : Nat, i < n →
        ({ e with queueSize := 0, totalTicks := e.totalTicks + 1 } : Env).totalTicks
            + (i + 1) ≠
          ({ e with queueSize := 0, totalTicks := e.totalTicks + 1 } : Env).maxTicks := by
      intro i hi2
      have h := hm (i + 1) (by omega)
      simp only [] at h ⊢
      push_cast at h ⊢
      omega
    have htick := tick_one_ok e hi ha h1
    have hIH := ih { e with queueSize := 0, totalTicks := e.totalTicks + 1 } hi ha hm2
    refine (seq_ok htick hIH).trans ?_
    cases n with
    | zero => rfl
    | succ m =>
      simp only [MOut.mk.injEq, Env.mk.injEq, cyclesTrace, cycleTrace,
        List.cons_append, List.nil_append]
      refine ⟨trivial, ?_, trivial⟩
      simp only [true_and, and_true]
      push_cast
      omega

/-! ### The agent-reload loop of reset -/

theorem addAgentsEnv_maxTicks (defs : List AgentDef) (e : Env) :
    (addAgentsEnv defs e).maxTicks = e.maxTicks := by
  induction defs generalizing e with
  | nil => rfl
  | cons d rest ih =>
    simp only [addAgentsEnv]
    rw [ih]
    by_cases he : d.existing <;> by_cases hmA : d.isMainAgent <;> simp [he, hmA]

theorem addAgentsEnv_totalTicks (defs : List AgentDef) (e : Env) :
    (addAgentsEnv defs e).totalTicks = e.totalTicks := by
  induction defs generalizing e with
  | nil => rfl
  | cons d rest ih =>
    simp only [addAgentsEnv]
    rw [ih]
    by_cases he : d.existing <;> by_cases hmA : d.isMainAgent <;> simp [he, hmA]

theorem addAgentsEnv_preStartSteps (defs : List AgentDef) (e : Env) :
    (addAgentsEnv defs e).preStartSteps = e.preStartSteps := by
  induction defs generalizing e with
  | nil => rfl
  | cons d rest ih =>
    simp only [addAgentsEnv]
    rw [ih]
    by_cases he : d.existing <;> by_cases hmA : d.isMainAgent <;> simp [he, hmA]

theorem addAgentsEnv_initialReset (defs : List AgentDef) (e : Env) :
    (addAgentsEnv defs e).initialReset = e.initialReset := by
  induction defs generalizing e with
  | nil => rfl
  | cons d rest ih =>
    simp only [addAgentsEnv]
    rw [ih]
    by_cases he : d.existing <;> by_cases hmA : d.isMainAgent <;> simp [he, hmA]

theorem addAgentsEnv_acquireTimesOut (defs : List AgentDef) (e : Env) :
    (addAgentsEnv defs e).acquireTimesOut = e.acquireTimesOut := by
  induction defs generalizing e with
  | nil => rfl
  | cons d rest ih =>
    simp only [addAgentsEnv]
    rw [ih]
    by_cases he : d.existing <;> by_cases hmA : d.isMainAgent <;> simp [he, hmA]

theorem addAgentsEnv_agents (defs : List AgentDef) (e : Env) :
    (addAgentsEnv defs e).agents = e.agents ++ defs.map AgentDef.name := by
  induction defs generalizing e with
  | nil => simp [addAgentsEnv]
  | cons d rest ih =>
    simp only [addAgentsEnv]
    rw [ih]
    by_cases he : d.existing <;> by_cases hmA : d.isMainAgent <;>
      simp [he, hmA, List.append_assoc]

theorem addAgentsEnv_stateDict (defs : List AgentDef) (e : Env) :
    (addAgentsEnv defs e).stateDict = e.stateDict ++ defs.map AgentDef.name := by
  induction defs generalizing e with
  | nil => simp [addAgentsEnv]
  | cons d rest ih =>
    simp only [addAgentsEnv]
    rw [ih]
    by_cases he : d.existing <;> by_cases hmA : d.isMainAgent <;>
      simp [he, hmA, List.append_assoc]

/-- The agent-reload loop succeeds when the initial agent definitions
carry pairwise distinct names, none of which is already registered; it
emits no events and produces the `addAgentsEnv` fold of the state. -/
theorem addAgentList_ok (defs : List AgentDef) (e : Env)
    (hnd : (defs.map AgentDef.name).Nodup)
    (hfresh : ∀ d ∈ defs, d.name ∉ e.agents) :
    (addAgentList defs) e = ⟨.ok (), addAgentsEnv defs e, []⟩ := by
  induction defs generalizing e with
  | nil => rfl
  | cons d rest ih =>
    have hd : d.name ∉ e.agents := hfresh d (by simp)
    have hadd : (add_agent d d.isMainAgent) e =
        ⟨.ok (),
          (let e1 := { e with agents := e.agents ++ [d.name]
                              stateDict := e.stateDict ++ [d.name] }
           let e2 := if d.existing then e1
                     else { e1 with queueSize := e1.queueSize + 1 }
           if d.isMainAgent then { e2 with mainAgent := some d.name } else e2),
          []⟩ := by
      by_cases he : d.existing <;> by_cases hmA : d.isMainAgent <;>
        simp [add_agent, run_bind, run_pure, M.bind, M.pure, getEnv, modifyEnv,
          enqueue_command, hd, he, hmA]
    have hnd2 : (rest.map AgentDef.name).Nodup := (List.nodup_cons.mp hnd).2
    have hdn : d.name ∉ rest.map AgentDef.name := (List.nodup_cons.mp hnd).1
    have hfresh2 : ∀ d' ∈ rest,
        d'.name ∉
          (let e1 := { e with agents := e.agents ++ [d.name]
                              stateDict := e.stateDict ++ [d.name] }
           let e2 := if d.existing then e1
                     else { e1 with queueSize := e1.queueSize + 1 }
           if d.isMainAgent then { e2 with mainAgent := some d.name } else e2 :
            Env).agents := by
      intro d' hd'
      have h1 : d'.name ∉ e.agents := hfresh d' (List.mem_cons_of_mem d hd')
      have h2 : d'.name ≠ d.name := by
        intro hEq
        exact hdn (hEq ▸ List.mem_map_of_mem AgentDef.name hd')
      by_cases he : d.existing <;> by_cases hmA : d.isMainAgent <;>
        simp [he, hmA, List.mem_append, h1, h2]
    have hIH := ih _ hnd2 hfresh2
    exact seq_ok hadd hIH

/-! ### Runs that hit the tick limit -/

theorem seq_ok_res {α β : Type} {x : M α} {f : α → M β} {e e1 : Env} {a : α}
    {t1 : List Event} (h : x e = ⟨.ok a, e1, t1⟩) :
    ((x >>= f) e).res = (f a e1).res := by
  cases hfa : f a e1 with
  | mk b e2 t2 =>
    show (M.bind x f e).res = _
    simp [M.bind, h, hfa]

/-- When the counter is going to reach the limit within the `k`
iterations, the tick loop raises the tick-limit `HolodeckException`. -/
theorem tickLoop_limit (k : Nat) (last : Option StateVal) (e : Env)
    (ha : e.acquireTimesOut = false)
    (hlt : e.totalTicks < e.maxTicks)
    (heq : e.totalTicks + k = e.maxTicks)
    (hk : 1 ≤ k) :
    ((tickLoop k last) e).res = .error (.holodeckException tickLimitMsg) := by
  induction k generalizing last e with
  | zero => omega
  | succ n ih =>
    have h_hb : handle_buffer e =
        ⟨.ok (), { e with queueSize := 0 }, [Event.flushBuffer]⟩ := rfl
    have h_cr : client_release { e with queueSize := 0 } =
        ⟨.ok (), { e with queueSize := 0 }, [Event.release]⟩ := rfl
    have h_ac : acquire_catch_crash { e with queueSize := 0 } =
        ⟨.ok (), { e with queueSize := 0 }, [Event.acquire]⟩ := by
      simp [acquire_catch_crash, ha]
    have h_ds : defaultStateFn { e with queueSize := 0 } =
        ⟨.ok (default_state_fn { e with queueSize := 0 }),
          { e with queueSize := 0 }, []⟩ := rfl
    by_cases h1 : e.totalTicks + 1 = e.maxTicks
    · have h_ck : check_max_tick { e with queueSize := 0 } =
          ⟨.error (.holodeckException tickLimitMsg),
            { e with queueSize := 0, totalTicks := e.totalTicks + 1 }, []⟩ := by
        simp [check_max_tick, h1]
      have hrun : (tickLoop (n + 1) last) e =
          ⟨.error (.holodeckException tickLimitMsg),
            { e with queueSize := 0, totalTicks := e.totalTicks + 1 },
            [Event.flushBuffer, Event.release, Event.acquire]⟩ :=
        seq_ok h_hb (seq_ok h_cr (seq_ok h_ac (seq_ok h_ds (seq_err h_ck))))
      rw [hrun]
    · have h_ck : check_max_tick { e with queueSize := 0 } =
          ⟨.ok (), { e with queueSize := 0, totalTicks := e.totalTicks + 1 }, []⟩ := by
        simp [check_max_tick, h1]
      have hres : ((tickLoop (n + 1) last) e).res =
          ((tickLoop n (some (default_state_fn { e with queueSize := 0 })))
              { e with queueSize := 0, totalTicks := e.totalTicks + 1 }).res :=
        (seq_ok_res h_hb).trans ((seq_ok_res h_cr).trans ((seq_ok_res h_ac).trans
          ((seq_ok_res h_ds).trans (seq_ok_res h_ck))))
      rw [hres]
      exact ih (some (default_state_fn { e with queueSize := 0 }))
        { e with queueSize := 0, totalTicks := e.totalTicks + 1 }
        ha (show e.totalTicks + 1 < e.maxTicks by omega)
        (show e.totalTicks + 1 + n = e.maxTicks by push_cast at heq ⊢; omega)
        (by omega)

/-- `tick k` on an environment where no iteration reaches the limit. -/
theorem tick_ok (k : Nat) (e : Env) (hi : e.initialReset = true)
    (ha : e.acquireTimesOut = false)
    (hm : ∀ i : Nat, i < k → e.totalTicks + (i + 1) ≠ e.maxTicks) :
    (tick k) e =
      ⟨.ok (match k with
            | 0 => (none : Option StateVal)
            | _ + 1 => some (default_state_fn e)),
        (match k with
         | 0 => e
         | _ + 1 => { e with queueSize := 0, totalTicks := e.totalTicks + k }),
        cyclesTrace k⟩ := by
  refine seq_ok (show getEnv e = ⟨.ok e, e, []⟩ from rfl) ?_
  rw [if_neg (by simp [hi])]
  exact tickLoop_ok k none e ha hm

/-- `tick k` raises the tick-limit exception when the counter reaches the
limit on the way. -/
theorem tick_limit (k : Nat) (e : Env) (hi : e.initialReset = true)
    (ha : e.acquireTimesOut = false)
    (hlt : e.totalTicks < e.maxTicks)
    (heq : e.totalTicks + k = e.maxTicks)
    (hk : 1 ≤ k) :
    ((tick k) e).res = .error (.holodeckException tickLimitMsg) := by
  have h2 : ((tick k) e).res =
      ((if e.initialReset = false then
          throwPy (.holodeckException mustResetTickMsg)
        else tickLoop k none) e).res :=
    seq_ok_res (show getEnv e = ⟨.ok e, e, []⟩ from rfl)
  rw [if_neg (by simp [hi])] at h2
  rw [h2]
  exact tickLoop_limit k none e ha hlt heq hk

/-! ### The reset run -/

theorem run_getEnv (e : Env) : getEnv e = ⟨.ok e, e, []⟩ := rfl

theorem run_modifyEnv (f : Env → Env) (e : Env) :
    (modifyEnv f) e = ⟨.ok (), f e, []⟩ := rfl

theorem run_set_reset_ptr (b : Bool) (e : Env) :
    (set_reset_ptr b) e = ⟨.ok (), { e with resetFlag := b }, [Event.setResetFlag b]⟩ := rfl

theorem run_commandCenter_clear (e : Env) :
    commandCenter_clear e = ⟨.ok (), { e with queueSize := 0 }, [Event.clearQueue]⟩ := rfl

theorem run_load_scenario (e : Env) : load_scenario e = ⟨.ok (), e, []⟩ := rfl

theorem run_defaultStateFn (e : Env) :
    defaultStateFn e = ⟨.ok (default_state_fn e), e, []⟩ := rfl

/-- Environment state when `reset` reaches the agent-reload loop: the
reset flag has been set, the three throwaway ticks have flushed the queue,
the counter has been set to `-1 - pre_start_steps`, the queue cleared and
the agent registry emptied. -/
def resetMidEnv (e : Env) : Env :=
  { e with initialReset := true, resetFlag := true, queueSize := 0,
           totalTicks := -1 - (e.preStartSteps : Int),
           spawnedAgentDefs := [], agents := [], stateDict := [] }

/-- Environment state after the agent-reload loop and the re-selection of
the default state function. -/
def resetAgentsEnv (e : Env) : Env :=
  let ek := addAgentsEnv e.initialAgentDefs (resetMidEnv e)
  { ek with singleState := ek.agents.length == 1 }

/-- Environment state `reset` returns in, as a pure function of the entry
state: `resetAgentsEnv` advanced by the `pre_start_steps + 1` final ticks. -/
def resetEnv (e : Env) : Env :=
  { resetAgentsEnv e with
    queueSize := 0
    totalTicks := (resetAgentsEnv e).totalTicks
      + ((resetAgentsEnv e).preStartSteps + 1 : Nat) }

theorem resetAgentsEnv_initialReset (e : Env) :
    (resetAgentsEnv e).initialReset = true := by
  simp [resetAgentsEnv, resetMidEnv, addAgentsEnv_initialReset]

theorem resetAgentsEnv_acquireTimesOut (e : Env) :
    (resetAgentsEnv e).acquireTimesOut = e.acquireTimesOut := by
  simp [resetAgentsEnv, resetMidEnv, addAgentsEnv_acquireTimesOut]

theorem resetAgentsEnv_totalTicks (e : Env) :
    (resetAgentsEnv e).totalTicks = -1 - (e.preStartSteps : Int) := by
  simp [resetAgentsEnv, resetMidEnv, addAgentsEnv_totalTicks]

theorem resetAgentsEnv_maxTicks (e : Env) :
    (resetAgentsEnv e).maxTicks = e.maxTicks := by
  simp [resetAgentsEnv, resetMidEnv, addAgentsEnv_maxTicks]

theorem resetAgentsEnv_preStartSteps (e : Env) :
    (resetAgentsEnv e).preStartSteps = e.preStartSteps := by
  simp [resetAgentsEnv, resetMidEnv, addAgentsEnv_preStartSteps]

theorem resetAgentsEnv_agents (e : Env) :
    (resetAgentsEnv e).agents = e.initialAgentDefs.map AgentDef.name := by
  simp [resetAgentsEnv, resetMidEnv, addAgentsEnv_agents]

theorem resetAgentsEnv_stateDict (e : Env) :
    (resetAgentsEnv e).stateDict = e.initialAgentDefs.map AgentDef.name := by
  simp [resetAgentsEnv, resetMidEnv, addAgentsEnv_stateDict]

theorem resetEnv_totalTicks (e : Env) : (resetEnv e).totalTicks = 0 := by
  rw [show (resetEnv e).totalTicks = (resetAgentsEnv e).totalTicks
      + (((resetAgentsEnv e).preStartSteps + 1 : Nat) : Int) from rfl,
    resetAgentsEnv_totalTicks, resetAgentsEnv_preStartSteps]
  push_cast
  ring

theorem resetEnv_initialReset (e : Env) : (resetEnv e).initialReset = true := by
  rw [show (resetEnv e).initialReset = (resetAgentsEnv e).initialReset from rfl,
    resetAgentsEnv_initialReset]

theorem resetEnv_acquireTimesOut (e : Env) :
    (resetEnv e).acquireTimesOut = e.acquireTimesOut := by
  rw [show (resetEnv e).acquireTimesOut = (resetAgentsEnv e).acquireTimesOut from rfl,
    resetAgentsEnv_acquireTimesOut]

theorem resetEnv_maxTicks (e : Env) : (resetEnv e).maxTicks = e.maxTicks := by
  rw [show (resetEnv e).maxTicks = (resetAgentsEnv e).maxTicks from rfl,
    resetAgentsEnv_maxTicks]

theorem resetEnv_agents (e : Env) :
    (resetEnv e).agents = e.initialAgentDefs.map AgentDef.name := by
  rw [show (resetEnv e).agents = (resetAgentsEnv e).agents from rfl,
    resetAgentsEnv_agents]

theorem resetEnv_stateDict (e : Env) :
    (resetEnv e).stateDict = e.initialAgentDefs.map AgentDef.name := by
  rw [show (resetEnv e).stateDict = (resetAgentsEnv e).stateDict from rfl,
    resetAgentsEnv_stateDict]

theorem resetEnv_queueSize (e : Env) : (resetEnv e).queueSize = 0 := rfl

/-- The full `reset` run: under an entry state whose counter is below a
positive tick limit, with no acquire timing out and distinct initial agent
names, `reset` succeeds, emits the reset-flag write, three throwaway
cycles, the queue clear and `pre_start_steps + 1` further cycles, and
returns the default state of the final environment `resetEnv e`. -/
theorem reset_run (e : Env) (ha : e.acquireTimesOut = false)
    (hlt : e.totalTicks < e.maxTicks) (hpos : 0 < e.maxTicks)
    (hnd : (e.initialAgentDefs.map AgentDef.name).Nodup) :
    reset e =
      ⟨.ok (default_state_fn (resetEnv e)), resetEnv e,
        [Event.setResetFlag true] ++ cyclesTrace 3 ++ [Event.clearQueue] ++
          cyclesTrace (e.preStartSteps + 1)⟩ := by
  have h4 := tick_one_ok
    { e with initialReset := true, resetFlag := true,
             totalTicks := e.totalTicks - 4 }
    rfl ha (show e.totalTicks - 4 + 1 ≠ e.maxTicks by omega)
  have h5 := tick_one_ok
    { e with initialReset := true, resetFlag := true, queueSize := 0,
             totalTicks := e.totalTicks - 4 + 1 }
    rfl ha (show e.totalTicks - 4 + 1 + 1 ≠ e.maxTicks by omega)
  have h6 := tick_one_ok
    { e with initialReset := true, resetFlag := true, queueSize := 0,
             totalTicks := e.totalTicks - 4 + 1 + 1 }
    rfl ha (show e.totalTicks - 4 + 1 + 1 + 1 ≠ e.maxTicks by omega)
  have h8 : warnIfPending
      { e with initialReset := true, resetFlag := true, queueSize := 0,
               totalTicks := -1 - (e.preStartSteps : Int) } =
      ⟨.ok (),
        { e with initialReset := true, resetFlag := true, queueSize := 0,
                 totalTicks := -1 - (e.preStartSteps : Int) }, []⟩ := by
    simp [warnIfPending]
  have h12 := addAgentList_ok e.initialAgentDefs (resetMidEnv e) hnd
    (fun d hd2 => by simp [resetMidEnv])
  have hm16 : ∀ i : Nat, i < (resetAgentsEnv e).preStartSteps + 1 →
      (resetAgentsEnv e).totalTicks + (i + 1) ≠ (resetAgentsEnv e).maxTicks := by
    intro i hi2
    rw [resetAgentsEnv_totalTicks, resetAgentsEnv_maxTicks]
    rw [resetAgentsEnv_preStartSteps] at hi2
    omega
  have h16 := resetTickCalls_ok ((resetAgentsEnv e).preStartSteps + 1)
    (resetAgentsEnv e) (resetAgentsEnv_initialReset e)
    (by rw [resetAgentsEnv_acquireTimesOut]; exact ha) hm16
  refine Eq.trans
    (seq_ok (run_modifyEnv _ _)
      (seq_ok (run_set_reset_ptr _ _)
        (seq_ok (run_modifyEnv _ _)
          (seq_ok h4
            (seq_ok h5
              (seq_ok h6
                (seq_ok (run_modifyEnv _ _)
                  (seq_ok h8
                    (seq_ok (run_commandCenter_clear _)
                      (seq_ok (run_modifyEnv _ _)
                        (seq_ok (run_getEnv _)
                          (seq_ok h12
                            (seq_ok (run_load_scenario _)
                              (seq_ok (run_modifyEnv _ _)
                                (seq_ok (run_getEnv _)
                                  (seq_ok h16
                                    (run_defaultStateFn _)))))))))))))))))
    ?_
  simp only [MOut.mk.injEq]
  refine ⟨rfl, rfl, ?_⟩
  rw [resetAgentsEnv_preStartSteps]
  simp [cyclesTrace, cycleTrace]

/-- C3: `reset()` (environments.py lines 357-407) writes True into the
single-boolean reset-flag buffer before any handshake of the new episode,
performs exactly three throwaway ticks, then — if the command queue is
non-empty — prints a warning naming exactly the number of pending
commands (and printing never raises), clears the queue without raising,
re-creates the agents from the initial agent definitions, performs
`pre_start_steps + 1` further ticks, and returns the state from the
default state function. -/
theorem reset_sequence (e : Env) (ha : e.acquireTimesOut = false)
    (hlt : e.totalTicks < e.maxTicks) (hpos : 0 < e.maxTicks)
    (hnd : (e.initialAgentDefs.map AgentDef.name).Nodup) :
    (∀ en : Env, warnIfPending en =
        ⟨.ok (), en,
          if 0 < en.queueSize then [Event.warnDiscard en.queueSize] else []⟩) ∧
    (∀ en : Env, commandCenter_clear en =
        ⟨.ok (), { en with queueSize := 0 }, [Event.clearQueue]⟩) ∧
    reset e =
      ⟨.ok (default_state_fn (resetEnv e)), resetEnv e,
        [Event.setResetFlag true] ++ cyclesTrace 3 ++ [Event.clearQueue] ++
          cyclesTrace (e.preStartSteps + 1)⟩ ∧
    (resetEnv e).agents = e.initialAgentDefs.map AgentDef.name ∧
    (resetEnv e).stateDict = e.initialAgentDefs.map AgentDef.name ∧
    (resetEnv e).queueSize = 0 :=
  ⟨fun _ => rfl, fun _ => rfl, reset_run e ha hlt hpos hnd,
   resetEnv_agents e, resetEnv_stateDict e, resetEnv_queueSize e⟩

/-- C3 witness: a concrete reset run with one initial agent: the flag
write leads, three throwaway cycles follow, the queue clear precedes the
single pre-start cycle, and the agent registry is rebuilt. -/
theorem reset_sequence_witness :
    ({ baseEnv with initialAgentDefs := [⟨"uav0", false, true⟩] } : Env).acquireTimesOut
        = false ∧
    ({ baseEnv with initialAgentDefs := [⟨"uav0", false, true⟩] } : Env).totalTicks
        < ({ baseEnv with initialAgentDefs := [⟨"uav0", false, true⟩] } : Env).maxTicks ∧
    (0 : Int) < ({ baseEnv with initialAgentDefs := [⟨"uav0", false, true⟩] } : Env).maxTicks ∧
    reset { baseEnv with initialAgentDefs := [⟨"uav0", false, true⟩] } =
      ⟨.ok (default_state_fn
          (resetEnv { baseEnv with initialAgentDefs := [⟨"uav0", false, true⟩] })),
        resetEnv { baseEnv with initialAgentDefs := [⟨"uav0", false, true⟩] },
        [Event.setResetFlag true] ++ cyclesTrace 3 ++ [Event.clearQueue] ++
          cyclesTrace
            (({ baseEnv with initialAgentDefs := [⟨"uav0", false, true⟩] } : Env).preStartSteps
              + 1)⟩ ∧
    (resetEnv { baseEnv with initialAgentDefs := [⟨"uav0", false, true⟩] }).agents =
      ([⟨"uav0", false, true⟩] : List AgentDef).map AgentDef.name :=
  ⟨rfl, by decide, by decide,
   (reset_sequence { baseEnv with initialAgentDefs := [⟨"uav0", false, true⟩] }
       rfl (by decide) (by decide) (by decide)).2.2.1,
   (reset_sequence { baseEnv with initialAgentDefs := [⟨"uav0", false, true⟩] }
       rfl (by decide) (by decide) (by decide)).2.2.2.1⟩

/-- C7: with a finite tick limit, `reset()` leaves the tick counter at 0
(the internal reset ticks are compensated by lowering the counter before
and after them, so no internal tick reaches the limit and the reset run
succeeds), and from the post-reset state exactly `max_ticks` user ticks
can be requested: any `k < max_ticks` ticks succeed, and the run that
reaches `max_ticks` raises the tick-limit `HolodeckException`
(environments.py lines 495-503 and 372-378). -/
theorem max_tick_accounting (e : Env) (ha : e.acquireTimesOut = false)
    (hlt : e.totalTicks < e.maxTicks) (hpos : 0 < e.maxTicks)
    (hnd : (e.initialAgentDefs.map AgentDef.name).Nodup) :
    (reset e).res = .ok (default_state_fn (resetEnv e)) ∧
    (resetEnv e).totalTicks = 0 ∧
    (∀ k : Nat, (k : Int) < e.maxTicks →
      ((tick k) (resetEnv e)).res =
        .ok (match k with
             | 0 => (none : Option StateVal)
             | _ + 1 => some (default_state_fn (resetEnv e)))) ∧
    (∀ k : Nat, (k : Int) = e.maxTicks →
      ((tick k) (resetEnv e)).res = .error (.holodeckException tickLimitMsg)) := by
  refine ⟨by rw [reset_run e ha hlt hpos hnd], resetEnv_totalTicks e, ?_, ?_⟩
  · intro k hk
    have hm : ∀ i : Nat, i < k →
        (resetEnv e).totalTicks + (i + 1) ≠ (resetEnv e).maxTicks := by
      intro i hi
      rw [resetEnv_totalTicks, resetEnv_maxTicks]
      omega
    rw [tick_ok k (resetEnv e) (resetEnv_initialReset e)
      (by rw [resetEnv_acquireTimesOut]; exact ha) hm]
    cases k <;> rfl
  · intro k hk
    exact tick_limit k (resetEnv e) (resetEnv_initialReset e)
      (by rw [resetEnv_acquireTimesOut]; exact ha)
      (by rw [resetEnv_totalTicks, resetEnv_maxTicks]; omega)
      (by rw [resetEnv_totalTicks, resetEnv_maxTicks]; omega)
      (by omega)

/-- C7 witness: with `max_ticks = 2`, after reset one tick succeeds and
the second user tick raises the tick-limit exception. -/
theorem max_tick_accounting_witness :
    ({ baseEnv with maxTicks := 2 } : Env).acquireTimesOut = false ∧
    ({ baseEnv with maxTicks := 2 } : Env).totalTicks
        < ({ baseEnv with maxTicks := 2 } : Env).maxTicks ∧
    (resetEnv { baseEnv with maxTicks := 2 }).totalTicks = 0 ∧
    ((1 : Nat) : Int) < ({ baseEnv with maxTicks := 2 } : Env).maxTicks ∧
    ((tick 1) (resetEnv { baseEnv with maxTicks := 2 })).res =
      .ok (some (default_state_fn (resetEnv { baseEnv with maxTicks := 2 }))) ∧
    ((2 : Nat) : Int) = ({ baseEnv with maxTicks := 2 } : Env).maxTicks ∧
    ((tick 2) (resetEnv { baseEnv with maxTicks := 2 })).res =
      .error (.holodeckException tickLimitMsg) :=
  ⟨rfl, by decide,
   (max_tick_accounting { baseEnv with maxTicks := 2 }
       rfl (by decide) (by decide) (by decide)).2.1,
   by decide,
   (max_tick_accounting { baseEnv with maxTicks := 2 }
       rfl (by decide) (by decide) (by decide)).2.2.1 1 (by decide),
   by decide,
   (max_tick_accounting { baseEnv with maxTicks := 2 }
       rfl (by decide) (by decide) (by decide)).2.2.2 2 (by decide)⟩

end Holodeck
